import Mathlib

/-!
Verification development for the kothak resource bring-up subsystem
(internal/kothak/kothak.go).

The embedding models `New` as sequential processing, in spawn order, of the
three families of bring-up units (object storages, then redis caches, then
sql databases), threading an explicit `BringUpState` that holds the three
name-keyed registries, the shared failure-accumulation list `errs`, an event
trace, and a fresh-id counter.  External calls (the config defaulting
routines, the provider SDK constructors, `sqldb.Connect`, `redigo.New`,
close calls) live outside src/ and are abstracted as an oracle `Env` that
decides each call's outcome; connection pools and storage clients are
identified by allocation ids, so reference equality of two pools is equality
of their ids.  Go maps are modelled as association lists with replace-or-add
insertion (the write `m[k] = v` of a Go map) and first-match lookup.

The unsynchronized concurrent append to the shared `errs` slice performed by
the spawned goroutines is modelled separately (`raceStep`, `raceRun`) as an
interleaving machine in which each goroutine's `errs = append(errs, err)` is
compiled, as in Go, into a read of the slice followed by a write, with no
synchronization between the two.
-/

/-- Error value of the Go `error` interface, identified by message. -/
inductive GoErr where
  | mk (msg : String)
deriving DecidableEq, Repr

/-- Connection spec of one database pool: DSN, retry and pool sizing, as
used by kothak.go (fields read at lines 198-221 of kothak.go). -/
structure SQLDBConnConfig where
  DSN : String
  MaxRetry : Nat
  MaxOpenConnections : Nat
  MaxIdleConnections : Nat
deriving DecidableEq, Repr

/-- One named database entry: driver, leader spec, optional replica spec
(the replica is absent when its DSN is empty, kothak.go line 216). -/
structure SQLDBConfig where
  Name : String
  Driver : String
  LeaderConnConfig : SQLDBConnConfig
  ReplicaConnConfig : SQLDBConnConfig
deriving DecidableEq, Repr

/-- Database family config.  The family-wide default fields read by the
(out-of-src) SetDefault routines are abstracted behind the Env oracles. -/
structure DBConfig where
  SQLDBs : List SQLDBConfig
deriving DecidableEq, Repr

/-- One named redis endpoint. -/
structure RedisConnConfig where
  Name : String
  Address : String
deriving DecidableEq, Repr

/-- Redis family config: shared pool sizing plus the endpoint list. -/
structure RedisConfig where
  MaxActive : Nat
  MaxIdle : Nat
  Timeout : Nat
  Rds : List RedisConnConfig
deriving DecidableEq, Repr

/-- GCS-specific credential block of an object-storage entry. -/
structure GCSStorageConfig where
  JSONKey : String
deriving DecidableEq, Repr

/-- S3-family credential/flag block of an object-storage entry. -/
structure S3StorageConfig where
  ClientID : String
  ClientSecret : String
  DisableSSL : Bool
  ForcePathStyle : Bool
deriving DecidableEq, Repr

/-- One named object-storage entry (fields read at kothak.go lines 73-136). -/
structure ObjectStorageConfig where
  Name : String
  Provider : String
  Bucket : String
  BucketProto : String
  BucketURL : String
  Region : String
  Endpoint : String
  GCS : GCSStorageConfig
  S3 : S3StorageConfig
deriving DecidableEq, Repr

/-- Top-level kothak Config (kothak.go lines 23-27). -/
structure Config where
  DBConfig : DBConfig
  RedisConfig : RedisConfig
  ObjectStorageConfig : List ObjectStorageConfig
deriving DecidableEq, Repr

/-- Modelled from the spec: provider identifier constant of the
objectstorage package (that package is not under src/); spec section 3
lists the identifiers local, gcs, s3, do, minio. -/
def StorageLocal : String := "local"

/-- Modelled from the spec: gcs provider identifier constant. -/
def StorageGCS : String := "gcs"

/-- Modelled from the spec: s3 provider identifier constant. -/
def StorageS3 : String := "s3"

/-- Modelled from the spec: digital-ocean provider identifier constant. -/
def StorageDO : String := "do"

/-- Modelled from the spec: minio provider identifier constant. -/
def StorageMinio : String := "minio"

/-- Provider-side GCS config as built at kothak.go lines 87-95: the loaded
credential (by its JSON key path) plus bucket, proto and URL. -/
structure GCSBuiltConfig where
  JSONKey : String
  Bucket : String
  BucketProto : String
  BucketURL : String
deriving DecidableEq, Repr

/-- Provider-side S3 config as built at kothak.go lines 111-124: the loaded
credential plus bucket, proto, URL, region, endpoint and the two flags. -/
structure S3BuiltConfig where
  ClientID : String
  ClientSecret : String
  Bucket : String
  BucketProto : String
  BucketURL : String
  Region : String
  Endpoint : String
  DisableSSL : Bool
  ForcePathStyle : Bool
deriving DecidableEq, Repr

/-- Redigo pool config built at kothak.go lines 159-163. -/
structure RedigoConfig where
  MaxActive : Nat
  MaxIdle : Nat
  Timeout : Nat
deriving DecidableEq, Repr

/-- Oracle for every external call kothak.go makes into packages that are
not under src/: each field decides the outcome of one call.  Defaulting
routines return the updated value on success (they mutate their receiver in
Go); connect-style calls return none on success and the error on failure. -/
structure Env where
  dbSetDefault : DBConfig → Except GoErr DBConfig
  connSetDefault : SQLDBConnConfig → DBConfig → Except GoErr SQLDBConnConfig
  sqldbConnect : String → SQLDBConnConfig → Option GoErr
  sqldbWrap : SQLDBConfig → Option GoErr
  localNew : String → Option GoErr
  gcsCredentialsFromFile : String → Option GoErr
  gcsNewConfig : String → Option GoErr
  gcsNew : GCSBuiltConfig → Option GoErr
  s3CredentialsFromClient : String → String → Option GoErr
  s3NewConfig : String → String → Option GoErr
  s3New : S3BuiltConfig → Option GoErr
  redigoNew : String → RedigoConfig → Option GoErr
  closeObjectStorage : Nat → Option GoErr
  closeSQLDB : Nat → Option GoErr
  closeRedis : Nat → Option GoErr

/-- Events recorded by the embedding: one per observable step of bring-up
and shutdown.  Connect/default events carry the resource name (and for
database connections the driver and DSN actually passed to sqldb.Connect). -/
inductive Event where
  | setDefaultDB
  | resolveStorage (name : String) (ok : Bool)
  | connectRedis (name addr : String) (ok : Bool)
  | connSetDefault (name : String) (ok : Bool)
  | connectLeader (name driver dsn : String)
  | connectFollower (name driver dsn : String)
  | closeStorage (name : String) (ok : Bool)
  | closeDB (name : String) (ok : Bool)
  | closeRedis (name : String) (ok : Bool)
deriving DecidableEq, Repr

/-- Database handle produced by sqldb.Wrap: the leader pool and the follower
pool, each identified by its allocation id (equal ids = the same pool
instance). -/
structure DBHandle where
  leader : Nat
  follower : Nat
deriving DecidableEq, Repr

/-- Go map write m[k] = v on an association list: replace the binding if the
key is present, append it otherwise. -/
def mapInsert {α : Type} (m : List (String × α)) (k : String) (v : α) :
    List (String × α) :=
  match m with
  | [] => [(k, v)]
  | (k₁, v₁) :: rest =>
      if k₁ = k then (k, v) :: rest else (k₁, v₁) :: mapInsert rest k v

/-- Go map read m[k] on an association list. -/
def mapLookup {α : Type} (m : List (String × α)) (k : String) : Option α :=
  match m with
  | [] => none
  | (k₁, v₁) :: rest => if k₁ = k then some v₁ else mapLookup rest k

/-- Mutable state threaded through bring-up: the three registries being
populated, the shared failure list errs, the event trace, and the fresh-id
counter for newly connected pools/clients. -/
structure BringUpState where
  objStorages : List (String × Nat)
  dbs : List (String × DBHandle)
  rds : List (String × Nat)
  errs : List GoErr
  events : List Event
  nextID : Nat
deriving DecidableEq, Repr

/-- Error built at kothak.go line 133 for an unrecognized provider. -/
def providerNotFoundErr : GoErr :=
  GoErr.mk "kothak: object storage provider not found"

/-- Model of strings.ToLower as used by the provider switch: lowercase the
string character by character (Char.toLower; for the ASCII provider
identifiers involved this coincides with Go's strings.ToLower). -/
def goToLower (s : String) : String :=
  ⟨s.data.map Char.toLower⟩

/-- Provider switch of the object-storage unit (kothak.go lines 73-141):
dispatch on strings.ToLower(config.Provider); each branch performs its
credential-load / config-build / connect sequence, short-circuiting on the
first failure; an unrecognized identifier yields providerNotFoundErr.
Returns none when a provider was connected. -/
def storageResolve (env : Env) (config : ObjectStorageConfig) : Option GoErr :=
  if goToLower config.Provider = StorageLocal then
    env.localNew ("./" ++ config.Bucket)
  else if goToLower config.Provider = StorageGCS then
    match env.gcsCredentialsFromFile config.GCS.JSONKey with
    | some e => some e
    | none =>
        match env.gcsNewConfig config.GCS.JSONKey with
        | some e => some e
        | none => env.gcsNew
            ⟨config.GCS.JSONKey, config.Bucket, config.BucketProto,
             config.BucketURL⟩
  else if goToLower config.Provider = StorageS3 ∨ goToLower config.Provider = StorageDO ∨
      goToLower config.Provider = StorageMinio then
    match env.s3CredentialsFromClient config.S3.ClientID config.S3.ClientSecret with
    | some e => some e
    | none =>
        match env.s3NewConfig config.S3.ClientID config.S3.ClientSecret with
        | some e => some e
        | none => env.s3New
            ⟨config.S3.ClientID, config.S3.ClientSecret, config.Bucket,
             config.BucketProto, config.BucketURL, config.Region,
             config.Endpoint, config.S3.DisableSSL, config.S3.ForcePathStyle⟩
  else
    some providerNotFoundErr

/-- One object-storage bring-up unit (the goroutine of kothak.go lines
63-146): on failure append the error to the shared errs list; on success
install the connected storage under its configured name. -/
def storageUnit (env : Env) (config : ObjectStorageConfig)
    (st : BringUpState) : BringUpState :=
  match storageResolve env config with
  | some e =>
      { st with errs := st.errs ++ [e],
                events := st.events ++ [Event.resolveStorage config.Name false] }
  | none =>
      { st with objStorages := mapInsert st.objStorages config.Name st.nextID,
                nextID := st.nextID + 1,
                events := st.events ++ [Event.resolveStorage config.Name true] }

/-- One redis bring-up unit (the goroutine of kothak.go lines 152-174):
connect with the family-shared pool config; on failure append the error,
on success install the connection under its configured name. -/
def redisUnit (env : Env) (shared : RedisConfig) (rc : RedisConnConfig)
    (st : BringUpState) : BringUpState :=
  match env.redigoNew rc.Address ⟨shared.MaxActive, shared.MaxIdle, shared.Timeout⟩ with
  | some e =>
      { st with errs := st.errs ++ [e],
                events := st.events ++ [Event.connectRedis rc.Name rc.Address false] }
  | none =>
      { st with rds := mapInsert st.rds rc.Name st.nextID,
                nextID := st.nextID + 1,
                events := st.events ++ [Event.connectRedis rc.Name rc.Address true] }

/-- Outcome of one database bring-up unit: the handle to install (none on
failure), the errors appended to the shared list, the events emitted, and
how many fresh pool ids the unit consumed. -/
structure UnitOut where
  handle : Option DBHandle
  errsOut : List GoErr
  eventsOut : List Event
  used : Nat
deriving DecidableEq, Repr

/-- Body of the database unit after the empty-driver branch (kothak.go lines
197-236): default the leader connection config, connect the leader, then -
by default the follower is the leader - connect a separate follower only
when the replica DSN is nonempty, and finally wrap the two pools.  base is
the value of the fresh-id counter when the unit runs; the leader pool gets
id base and a separately connected follower gets id base + 1. -/
def dbUnitMain (env : Env) (dbc : DBConfig) (c : SQLDBConfig) (base : Nat) :
    UnitOut :=
  match env.connSetDefault c.LeaderConnConfig dbc with
  | .error e => ⟨none, [e], [Event.connSetDefault c.Name false], 0⟩
  | .ok leaderCfg =>
      let ev0 : List Event :=
        [Event.connSetDefault c.Name true,
         Event.connectLeader c.Name c.Driver leaderCfg.DSN]
      match env.sqldbConnect c.Driver leaderCfg with
      | some e => ⟨none, [e], ev0, 0⟩
      | none =>
          if c.ReplicaConnConfig.DSN = "" then
            match env.sqldbWrap c with
            | some e => ⟨none, [e], ev0, 1⟩
            | none => ⟨some ⟨base, base⟩, [], ev0, 1⟩
          else
            let ev1 := ev0 ++
              [Event.connectFollower c.Name c.Driver c.ReplicaConnConfig.DSN]
            match env.sqldbConnect c.Driver c.ReplicaConnConfig with
            | some e => ⟨none, [e], ev1, 1⟩
            | none =>
                match env.sqldbWrap c with
                | some e => ⟨none, [e], ev1, 2⟩
                | none => ⟨some ⟨base, base + 1⟩, [], ev1, 2⟩

/-- One database bring-up unit (the goroutine of kothak.go lines 180-237).
The branch at lines 193-195, `if dbconfig.Driver == "" { }`, has an empty
body: both sides of the conditional continue into the same code. -/
def dbUnitOut (env : Env) (dbc : DBConfig) (c : SQLDBConfig) (base : Nat) :
    UnitOut :=
  if c.Driver = "" then dbUnitMain env dbc c base else dbUnitMain env dbc c base

/-- Apply a database unit's outcome to the shared state: install the handle
under the configured name when present, append its errors and events,
advance the id counter. -/
def dbUnit (env : Env) (dbc : DBConfig) (c : SQLDBConfig)
    (st : BringUpState) : BringUpState :=
  let o := dbUnitOut env dbc c st.nextID
  { st with
    dbs := match o.handle with
           | some h => mapInsert st.dbs c.Name h
           | none => st.dbs,
    errs := st.errs ++ o.errsOut,
    events := st.events ++ o.eventsOut,
    nextID := st.nextID + o.used }

/-- Registry handed out by New (the Kothak struct, kothak.go lines 30-35):
three name-keyed maps, one per resource family. -/
structure Kothak where
  objStorages : List (String × Nat)
  dbs : List (String × DBHandle)
  rds : List (String × Nat)
deriving DecidableEq, Repr

/-- Final bring-up state of New (kothak.go lines 38-241): DBConfig.SetDefault
gates everything and aborts the whole call on failure (line 57 returns nil);
otherwise every configured unit runs - object storages, then redis caches,
then databases, in spawn order - and the joined state is returned. -/
def newFinalState (env : Env) (cfg : Config) : Except GoErr BringUpState :=
  match env.dbSetDefault cfg.DBConfig with
  | .error e => .error e
  | .ok dbc =>
      let st0 : BringUpState := ⟨[], [], [], [], [Event.setDefaultDB], 0⟩
      let st1 := cfg.ObjectStorageConfig.foldl
        (fun s c => storageUnit env c s) st0
      let st2 := cfg.RedisConfig.Rds.foldl
        (fun s c => redisUnit env cfg.RedisConfig c s) st1
      let st3 := dbc.SQLDBs.foldl (fun s c => dbUnit env dbc c s) st2
      .ok st3

/-- New (kothak.go lines 38-249): on a defaulting failure return (nil, err);
otherwise return the populated registry together with errs[0] when the
failure list is nonempty and nil error otherwise (lines 244-248). -/
def New (env : Env) (cfg : Config) : Option Kothak × Option GoErr :=
  match newFinalState env cfg with
  | .error e => (none, some e)
  | .ok st => (some ⟨st.objStorages, st.dbs, st.rds⟩, st.errs.head?)

/-- Total variant of newFinalState used to state closed witnesses: the final
state when defaulting succeeded, the empty state otherwise. -/
def finalStateD (env : Env) (cfg : Config) : BringUpState :=
  match newFinalState env cfg with
  | .ok st => st
  | .error _ => ⟨[], [], [], [], [], 0⟩

/-- CloseAll (kothak.go lines 253-266): close every object-storage handle,
then every database handle, then every redis handle; each close call's
error is discarded and the function always returns nil.  The registry maps
are not modified.  The returned event list records each close and whether
the underlying close call succeeded. -/
def Kothak.CloseAll (k : Kothak) (env : Env) :
    Kothak × List Event × Option GoErr :=
  (k,
   k.objStorages.map
       (fun p => Event.closeStorage p.1 (env.closeObjectStorage p.2).isNone)
     ++ k.dbs.map (fun p => Event.closeDB p.1 (env.closeSQLDB p.2.leader).isNone)
     ++ k.rds.map (fun p => Event.closeRedis p.1 (env.closeRedis p.2).isNone),
   none)

/-- Lookup error message of GetSQLDB (kothak.go line 272). -/
def dbLookupErr (dbname : String) : GoErr :=
  GoErr.mk ("kothak: sql database with name " ++ dbname ++ " does not exists")

/-- Lookup error message of GetRedis (kothak.go line 291). -/
def redisLookupErr (redisname : String) : GoErr :=
  GoErr.mk ("kothak: redis with name " ++ redisname ++ " does not exists")

/-- Lookup error message of GetObjectStorage (kothak.go line 310). -/
def objLookupErr (objStorageName : String) : GoErr :=
  GoErr.mk ("kothak: object storage with name " ++ objStorageName ++
    " does not exists")

/-- GetSQLDB (kothak.go lines 269-276): fallible lookup, returns the handle
or (nil, error); reads the map and never mutates it. -/
def Kothak.GetSQLDB (k : Kothak) (dbname : String) :
    Option DBHandle × Option GoErr :=
  match mapLookup k.dbs dbname with
  | some i => (some i, none)
  | none => (none, some (dbLookupErr dbname))

/-- GetRedis (kothak.go lines 288-295). -/
def Kothak.GetRedis (k : Kothak) (redisname : String) :
    Option Nat × Option GoErr :=
  match mapLookup k.rds redisname with
  | some i => (some i, none)
  | none => (none, some (redisLookupErr redisname))

/-- GetObjectStorage (kothak.go lines 307-314). -/
def Kothak.GetObjectStorage (k : Kothak) (objStorageName : String) :
    Option Nat × Option GoErr :=
  match mapLookup k.objStorages objStorageName with
  | some i => (some i, none)
  | none => (none, some (objLookupErr objStorageName))

/-- Result of a fail-fast accessor: either the process terminated via
logger.Fatalf, or the handle. -/
inductive MustGet (α : Type) where
  | fatal (e : GoErr)
  | ok (h : α)
deriving DecidableEq, Repr

/-- MustGetSQLDB (kothak.go lines 279-285).  Modelled from the spec: the
logger package is not under src/ and logger.Fatalf terminates the process,
so a missing name yields the terminal outcome MustGet.fatal. -/
def Kothak.MustGetSQLDB (k : Kothak) (dbname : String) : MustGet DBHandle :=
  match mapLookup k.dbs dbname with
  | some i => .ok i
  | none => .fatal (dbLookupErr dbname)

/-- MustGetRedis (kothak.go lines 298-304); Fatalf modelled from the spec
as process termination. -/
def Kothak.MustGetRedis (k : Kothak) (redisname : String) : MustGet Nat :=
  match mapLookup k.rds redisname with
  | some i => .ok i
  | none => .fatal (redisLookupErr redisname)

/-- MustGetObjectStorage (kothak.go lines 317-323); Fatalf modelled from the
spec as process termination. -/
def Kothak.MustGetObjectStorage (k : Kothak) (objStorageName : String) :
    MustGet Nat :=
  match mapLookup k.objStorages objStorageName with
  | some i => .ok i
  | none => .fatal (objLookupErr objStorageName)

/-- State of the interleaving model of the shared errs slice: the shared
slice, and per goroutine a program counter and the slice value it read.
Each goroutine executes errs = append(errs, e) as two separate atomic
actions - read the slice (pc 0 to 1), then write the appended copy back
(pc 1 to 2) - with no synchronization between the goroutines, exactly as
the spawned units of kothak.go lines 83, 134, 167, 199 do. -/
structure RaceState where
  errs : List GoErr
  pc1 : Nat
  r1 : List GoErr
  pc2 : Nat
  r2 : List GoErr
deriving DecidableEq, Repr

/-- One scheduler step of the interleaving model: run the next atomic action
of goroutine 1 (who = true) or goroutine 2 (who = false). -/
def raceStep (e1 e2 : GoErr) (who : Bool) (s : RaceState) : RaceState :=
  if who then
    match s.pc1 with
    | 0 => { s with r1 := s.errs, pc1 := 1 }
    | 1 => { s with errs := s.r1 ++ [e1], pc1 := 2 }
    | _ => s
  else
    match s.pc2 with
    | 0 => { s with r2 := s.errs, pc2 := 1 }
    | 1 => { s with errs := s.r2 ++ [e2], pc2 := 2 }
    | _ => s

/-- Run the interleaving model under a schedule (the list of which goroutine
takes each step), from the empty shared slice. -/
def raceRun (e1 e2 : GoErr) (sched : List Bool) : RaceState :=
  sched.foldl (fun s w => raceStep e1 e2 w s) ⟨[], 0, [], 0, []⟩

/-- Oracle under which every external call succeeds; defaulting routines
return their input unchanged. -/
def envOK : Env where
  dbSetDefault := fun dbc => .ok dbc
  connSetDefault := fun lc _ => .ok lc
  sqldbConnect := fun _ _ => none
  sqldbWrap := fun _ => none
  localNew := fun _ => none
  gcsCredentialsFromFile := fun _ => none
  gcsNewConfig := fun _ => none
  gcsNew := fun _ => none
  s3CredentialsFromClient := fun _ _ => none
  s3NewConfig := fun _ _ => none
  s3New := fun _ => none
  redigoNew := fun _ _ => none
  closeObjectStorage := fun _ => none
  closeSQLDB := fun _ => none
  closeRedis := fun _ => none

/-- Object-storage entry with the given name and provider and inert other
fields, for concrete witnesses. -/
def mkStorage (name provider : String) : ObjectStorageConfig :=
  ⟨name, provider, "bkt", "", "", "", "", ⟨""⟩, ⟨"", "", false, false⟩⟩

/-- Database entry with the given name, driver and DSNs, for concrete
witnesses (an empty replicaDSN means no replica). -/
def mkSQLDB (name driver dsn replicaDSN : String) : SQLDBConfig :=
  ⟨name, driver, ⟨dsn, 0, 0, 0⟩, ⟨replicaDSN, 0, 0, 0⟩⟩

/-- True when the lowercased provider identifier is one of the recognized
ones (the guards of the switch at kothak.go lines 73-136). -/
def providerRecognized (p : String) : Bool :=
  (goToLower p == StorageLocal) || (goToLower p == StorageGCS) ||
    (goToLower p == StorageS3) || (goToLower p == StorageDO) ||
    (goToLower p == StorageMinio)

/-- Success predicate of one object-storage unit under an oracle. -/
def storageOK (env : Env) (c : ObjectStorageConfig) : Bool :=
  (storageResolve env c).isNone

/-- Success predicate of one redis unit under an oracle. -/
def redisOK (env : Env) (shared : RedisConfig) (rc : RedisConnConfig) : Bool :=
  (env.redigoNew rc.Address ⟨shared.MaxActive, shared.MaxIdle, shared.Timeout⟩).isNone

/-- Success predicate of one database unit under an oracle (the branch taken
by dbUnitOut does not depend on the id counter, so base 0 is used). -/
def dbOK (env : Env) (dbc : DBConfig) (c : SQLDBConfig) : Bool :=
  (dbUnitOut env dbc c 0).handle.isSome

theorem mapLookup_mapInsert_self {α : Type} (m : List (String × α)) (k : String)
    (v : α) : mapLookup (mapInsert m k v) k = some v := by
  induction m with
  | nil => simp [mapInsert, mapLookup]
  | cons p rest ih =>
      by_cases h : p.1 = k
      · simp [mapInsert, mapLookup, h]
      · simp [mapInsert, mapLookup, h, ih]

theorem mapLookup_mapInsert_ne {α : Type} (m : List (String × α)) (k n : String)
    (v : α) (h : n ≠ k) :
    mapLookup (mapInsert m k v) n = mapLookup m n := by
  have hkn : ¬(k = n) := fun h₁ => h h₁.symm
  induction m with
  | nil => simp [mapInsert, mapLookup, hkn]
  | cons p rest ih =>
      obtain ⟨k₁, v₁⟩ := p
      by_cases h₁ : k₁ = k
      · subst h₁
        simp [mapInsert, mapLookup, hkn]
      · simp only [mapInsert, mapLookup, h₁, if_false]
        by_cases h₂ : k₁ = n
        · simp [h₂]
        · simp [h₂, ih]

theorem mapInsert_presence {α : Type} (m : List (String × α)) (k n : String)
    (v : α) (h : (mapLookup m n).isSome = true) :
    (mapLookup (mapInsert m k v) n).isSome = true := by
  by_cases hk : n = k
  · subst hk; simp [mapLookup_mapInsert_self]
  · rw [mapLookup_mapInsert_ne m k n v hk]; exact h

theorem foldPreserve {σ β : Type} (f : σ → β → σ) (P : σ → Prop)
    (hf : ∀ s b, P s → P (f s b)) :
    ∀ (l : List β) (s : σ), P s → P (l.foldl f s) := by
  intro l
  induction l with
  | nil => intro s hs; exact hs
  | cons b rest ih => intro s hs; exact ih (f s b) (hf s b hs)

theorem foldFrame {σ β γ : Type} (f : σ → β → σ) (proj : σ → γ)
    (hf : ∀ s b, proj (f s b) = proj s) :
    ∀ (l : List β) (s : σ), proj (l.foldl f s) = proj s := by
  intro l
  induction l with
  | nil => intro s; rfl
  | cons b rest ih => intro s; rw [List.foldl_cons, ih, hf]

theorem storageUnit_dbs (env : Env) (c : ObjectStorageConfig)
    (st : BringUpState) : (storageUnit env c st).dbs = st.dbs := by
  unfold storageUnit; cases storageResolve env c <;> rfl

theorem storageUnit_rds (env : Env) (c : ObjectStorageConfig)
    (st : BringUpState) : (storageUnit env c st).rds = st.rds := by
  unfold storageUnit; cases storageResolve env c <;> rfl

theorem redisUnit_objStorages (env : Env) (shared : RedisConfig)
    (rc : RedisConnConfig) (st : BringUpState) :
    (redisUnit env shared rc st).objStorages = st.objStorages := by
  unfold redisUnit
  cases env.redigoNew rc.Address ⟨shared.MaxActive, shared.MaxIdle, shared.Timeout⟩ <;> rfl

theorem redisUnit_dbs (env : Env) (shared : RedisConfig)
    (rc : RedisConnConfig) (st : BringUpState) :
    (redisUnit env shared rc st).dbs = st.dbs := by
  unfold redisUnit
  cases env.redigoNew rc.Address ⟨shared.MaxActive, shared.MaxIdle, shared.Timeout⟩ <;> rfl

theorem dbUnit_objStorages (env : Env) (dbc : DBConfig) (c : SQLDBConfig)
    (st : BringUpState) : (dbUnit env dbc c st).objStorages = st.objStorages := rfl

theorem dbUnit_rds (env : Env) (dbc : DBConfig) (c : SQLDBConfig)
    (st : BringUpState) : (dbUnit env dbc c st).rds = st.rds := rfl

theorem storageUnit_events (env : Env) (c : ObjectStorageConfig)
    (st : BringUpState) : (storageUnit env c st).events =
      st.events ++ [Event.resolveStorage c.Name (storageOK env c)] := by
  unfold storageUnit storageOK
  cases storageResolve env c <;> rfl

theorem redisUnit_events (env : Env) (shared : RedisConfig)
    (rc : RedisConnConfig) (st : BringUpState) :
    (redisUnit env shared rc st).events = st.events ++
      [Event.connectRedis rc.Name rc.Address (redisOK env shared rc)] := by
  unfold redisUnit redisOK
  cases env.redigoNew rc.Address ⟨shared.MaxActive, shared.MaxIdle, shared.Timeout⟩ <;> rfl

theorem dbUnit_events (env : Env) (dbc : DBConfig) (c : SQLDBConfig)
    (st : BringUpState) : (dbUnit env dbc c st).events =
      st.events ++ (dbUnitOut env dbc c st.nextID).eventsOut := rfl

theorem dbUnit_errs (env : Env) (dbc : DBConfig) (c : SQLDBConfig)
    (st : BringUpState) : (dbUnit env dbc c st).errs =
      st.errs ++ (dbUnitOut env dbc c st.nextID).errsOut := rfl

theorem storageUnit_errsExtend (env : Env) (c : ObjectStorageConfig)
    (st : BringUpState) : ∃ t, (storageUnit env c st).errs = st.errs ++ t := by
  unfold storageUnit
  cases storageResolve env c with
  | none => exact ⟨[], by simp⟩
  | some e => exact ⟨[e], rfl⟩

theorem redisUnit_errsExtend (env : Env) (shared : RedisConfig)
    (rc : RedisConnConfig) (st : BringUpState) :
    ∃ t, (redisUnit env shared rc st).errs = st.errs ++ t := by
  unfold redisUnit
  cases env.redigoNew rc.Address ⟨shared.MaxActive, shared.MaxIdle, shared.Timeout⟩ with
  | none => exact ⟨[], by simp⟩
  | some e => exact ⟨[e], rfl⟩

theorem dbUnitOut_eq_main (env : Env) (dbc : DBConfig) (c : SQLDBConfig)
    (b : Nat) : dbUnitOut env dbc c b = dbUnitMain env dbc c b := by
  unfold dbUnitOut; exact ite_self _

theorem dbUnit_dbs (env : Env) (dbc : DBConfig) (c : SQLDBConfig)
    (st : BringUpState) : (dbUnit env dbc c st).dbs =
      (match (dbUnitOut env dbc c st.nextID).handle with
       | some h => mapInsert st.dbs c.Name h
       | none => st.dbs) := rfl

theorem storageUnit_objStorages (env : Env) (c : ObjectStorageConfig)
    (st : BringUpState) : (storageUnit env c st).objStorages =
      (match storageResolve env c with
       | some _ => st.objStorages
       | none => mapInsert st.objStorages c.Name st.nextID) := by
  unfold storageUnit; cases storageResolve env c <;> rfl

theorem redisUnit_rds (env : Env) (shared : RedisConfig) (rc : RedisConnConfig)
    (st : BringUpState) : (redisUnit env shared rc st).rds =
      (match env.redigoNew rc.Address ⟨shared.MaxActive, shared.MaxIdle, shared.Timeout⟩ with
       | some _ => st.rds
       | none => mapInsert st.rds rc.Name st.nextID) := by
  unfold redisUnit
  cases env.redigoNew rc.Address ⟨shared.MaxActive, shared.MaxIdle, shared.Timeout⟩ <;> rfl

theorem foldPresenceGen {σ β α : Type} (f : σ → β → σ)
    (proj : σ → List (String × α)) (nm : β → String) (ok : β → Prop)
    (hmono : ∀ s b n, (mapLookup (proj s) n).isSome = true →
      (mapLookup (proj (f s b)) n).isSome = true)
    (hself : ∀ s b, ok b → (mapLookup (proj (f s b)) (nm b)).isSome = true) :
    ∀ (l : List β) (s : σ) (b : β), b ∈ l → ok b →
      (mapLookup (proj (l.foldl f s)) (nm b)).isSome = true := by
  intro l
  induction l with
  | nil => intro s b hb; exact absurd hb (List.not_mem_nil b)
  | cons x rest ih =>
      intro s b hb hok
      rw [List.foldl_cons]
      rcases List.mem_cons.mp hb with h | h
      · subst h
        exact foldPreserve f (fun s => (mapLookup (proj s) (nm b)).isSome = true)
          (fun s y => hmono s y (nm b)) rest (f s b) (hself s b hok)
      · exact ih (f s x) b h hok

theorem storageUnit_presence (env : Env) (c : ObjectStorageConfig)
    (st : BringUpState) (n : String)
    (h : (mapLookup st.objStorages n).isSome = true) :
    (mapLookup (storageUnit env c st).objStorages n).isSome = true := by
  rw [storageUnit_objStorages]
  cases storageResolve env c with
  | some e => exact h
  | none => exact mapInsert_presence _ _ _ _ h

theorem redisUnit_presence (env : Env) (shared : RedisConfig)
    (rc : RedisConnConfig) (st : BringUpState) (n : String)
    (h : (mapLookup st.rds n).isSome = true) :
    (mapLookup (redisUnit env shared rc st).rds n).isSome = true := by
  rw [redisUnit_rds]
  cases env.redigoNew rc.Address ⟨shared.MaxActive, shared.MaxIdle, shared.Timeout⟩ with
  | some e => exact h
  | none => exact mapInsert_presence _ _ _ _ h

theorem dbUnit_presence (env : Env) (dbc : DBConfig) (c : SQLDBConfig)
    (st : BringUpState) (n : String)
    (h : (mapLookup st.dbs n).isSome = true) :
    (mapLookup (dbUnit env dbc c st).dbs n).isSome = true := by
  rw [dbUnit_dbs]
  cases (dbUnitOut env dbc c st.nextID).handle with
  | none => exact h
  | some hd => exact mapInsert_presence _ _ _ _ h

theorem dbUnitOut_handle_base (env : Env) (dbc : DBConfig) (c : SQLDBConfig)
    (b : Nat) : (dbUnitOut env dbc c b).handle.isSome =
      (dbUnitOut env dbc c 0).handle.isSome := by
  rw [dbUnitOut_eq_main, dbUnitOut_eq_main]
  unfold dbUnitMain
  cases env.connSetDefault c.LeaderConnConfig dbc with
  | error e => rfl
  | ok lc =>
      dsimp only
      cases env.sqldbConnect c.Driver lc with
      | some e => rfl
      | none =>
          dsimp only
          by_cases hr : c.ReplicaConnConfig.DSN = ""
          · simp only [hr, if_true]
            cases env.sqldbWrap c <;> rfl
          · simp only [hr, if_false]
            cases env.sqldbConnect c.Driver c.ReplicaConnConfig with
            | some e => rfl
            | none =>
                dsimp only
                cases env.sqldbWrap c <;> rfl

theorem storageUnit_selfPresence (env : Env) (c : ObjectStorageConfig)
    (st : BringUpState) (hok : storageOK env c = true) :
    (mapLookup (storageUnit env c st).objStorages c.Name).isSome = true := by
  rw [storageUnit_objStorages]
  unfold storageOK at hok
  cases hr : storageResolve env c with
  | some e => rw [hr] at hok; simp at hok
  | none => simp [mapLookup_mapInsert_self]

theorem redisUnit_selfPresence (env : Env) (shared : RedisConfig)
    (rc : RedisConnConfig) (st : BringUpState)
    (hok : redisOK env shared rc = true) :
    (mapLookup (redisUnit env shared rc st).rds rc.Name).isSome = true := by
  rw [redisUnit_rds]
  unfold redisOK at hok
  cases hr : env.redigoNew rc.Address ⟨shared.MaxActive, shared.MaxIdle, shared.Timeout⟩ with
  | some e => rw [hr] at hok; simp at hok
  | none => simp [mapLookup_mapInsert_self]

theorem dbUnit_selfPresence (env : Env) (dbc : DBConfig) (c : SQLDBConfig)
    (st : BringUpState) (hok : dbOK env dbc c = true) :
    (mapLookup (dbUnit env dbc c st).dbs c.Name).isSome = true := by
  rw [dbUnit_dbs]
  unfold dbOK at hok
  rw [← dbUnitOut_handle_base env dbc c st.nextID] at hok
  cases hh : (dbUnitOut env dbc c st.nextID).handle with
  | none => rw [hh] at hok; simp at hok
  | some hd => simp [mapLookup_mapInsert_self]

theorem dbFoldLookupNe (env : Env) (dbc : DBConfig) (l : List SQLDBConfig)
    (st : BringUpState) (n : String) (h : ∀ c ∈ l, c.Name ≠ n) :
    mapLookup ((l.foldl (fun s x => dbUnit env dbc x s) st).dbs) n =
      mapLookup st.dbs n := by
  induction l generalizing st with
  | nil => rfl
  | cons x rest ih =>
      rw [List.foldl_cons, ih _ (fun c hc => h c (List.mem_cons_of_mem x hc))]
      rw [dbUnit_dbs]
      cases (dbUnitOut env dbc x st.nextID).handle with
      | none => rfl
      | some hd =>
          exact mapLookup_mapInsert_ne _ _ _ _ (h x (List.mem_cons_self x rest)).symm

theorem dbFoldInstall (env : Env) (dbc : DBConfig) (l : List SQLDBConfig)
    (st : BringUpState) (c : SQLDBConfig) (d : Nat) (hc : c ∈ l)
    (hnd : (l.map SQLDBConfig.Name).Nodup)
    (hshape : ∀ b, (dbUnitOut env dbc c b).handle = some ⟨b, b + d⟩) :
    ∃ b, mapLookup ((l.foldl (fun s x => dbUnit env dbc x s) st).dbs) c.Name =
      some ⟨b, b + d⟩ := by
  induction l generalizing st with
  | nil => exact absurd hc (List.not_mem_nil c)
  | cons x rest ih =>
      rw [List.foldl_cons]
      rw [List.map_cons, List.nodup_cons] at hnd
      rcases List.mem_cons.mp hc with h | h
      · subst h
        refine ⟨st.nextID, ?_⟩
        have hne : ∀ y ∈ rest, y.Name ≠ c.Name := by
          intro y hy heq
          exact hnd.1 (heq ▸ List.mem_map_of_mem SQLDBConfig.Name hy)
        rw [dbFoldLookupNe env dbc rest _ _ hne]
        rw [dbUnit_dbs, hshape st.nextID]
        exact mapLookup_mapInsert_self _ _ _
      · exact ih (dbUnit env dbc x st) h hnd.2

/-- Predicate selecting the database connect events of a given entry name
(the sqldb.Connect calls at kothak.go lines 203 and 217). -/
def isDBConnectEvent (n : String) : Event → Bool
  | Event.connectLeader m _ _ => m == n
  | Event.connectFollower m _ _ => m == n
  | _ => false

theorem foldFilterEventsMem {β : Type} (f : BringUpState → β → BringUpState)
    (p : Event → Bool) (l : List β)
    (hf : ∀ s, ∀ b ∈ l, ((f s b).events).filter p = (s.events).filter p) :
    ∀ s : BringUpState, ((l.foldl f s).events).filter p = (s.events).filter p := by
  induction l with
  | nil => intro s; rfl
  | cons x rest ih =>
      intro s
      rw [List.foldl_cons,
        ih (fun s₁ b hb => hf s₁ b (List.mem_cons_of_mem x hb)),
        hf s x (List.mem_cons_self x rest)]

theorem storageUnit_filterDB (env : Env) (c : ObjectStorageConfig)
    (st : BringUpState) (n : String) :
    ((storageUnit env c st).events).filter (isDBConnectEvent n) =
      (st.events).filter (isDBConnectEvent n) := by
  rw [storageUnit_events, List.filter_append]
  simp [isDBConnectEvent]

theorem redisUnit_filterDB (env : Env) (shared : RedisConfig)
    (rc : RedisConnConfig) (st : BringUpState) (n : String) :
    ((redisUnit env shared rc st).events).filter (isDBConnectEvent n) =
      (st.events).filter (isDBConnectEvent n) := by
  rw [redisUnit_events, List.filter_append]
  simp [isDBConnectEvent]

theorem dbUnitOut_events_base (env : Env) (dbc : DBConfig) (c : SQLDBConfig)
    (b : Nat) : (dbUnitOut env dbc c b).eventsOut =
      (dbUnitOut env dbc c 0).eventsOut := by
  rw [dbUnitOut_eq_main, dbUnitOut_eq_main]
  unfold dbUnitMain
  cases env.connSetDefault c.LeaderConnConfig dbc with
  | error e => rfl
  | ok lc =>
      dsimp only
      cases env.sqldbConnect c.Driver lc with
      | some e => rfl
      | none =>
          dsimp only
          by_cases hr : c.ReplicaConnConfig.DSN = ""
          · simp only [hr, if_true]
            cases env.sqldbWrap c <;> rfl
          · simp only [hr, if_false]
            cases env.sqldbConnect c.Driver c.ReplicaConnConfig with
            | some e => rfl
            | none =>
                dsimp only
                cases env.sqldbWrap c <;> rfl

theorem dbUnitOut_filterNe (env : Env) (dbc : DBConfig) (c : SQLDBConfig)
    (b : Nat) (n : String) (h : c.Name ≠ n) :
    ((dbUnitOut env dbc c b).eventsOut).filter (isDBConnectEvent n) = [] := by
  rw [dbUnitOut_eq_main]
  unfold dbUnitMain
  cases env.connSetDefault c.LeaderConnConfig dbc with
  | error e => simp [isDBConnectEvent]
  | ok lc =>
      dsimp only
      cases env.sqldbConnect c.Driver lc with
      | some e => simp [isDBConnectEvent, h]
      | none =>
          dsimp only
          by_cases hr : c.ReplicaConnConfig.DSN = ""
          · simp only [hr, if_true]
            cases env.sqldbWrap c <;> simp [isDBConnectEvent, h]
          · simp only [hr, if_false]
            cases env.sqldbConnect c.Driver c.ReplicaConnConfig with
            | some e => simp [isDBConnectEvent, h]
            | none =>
                dsimp only
                cases env.sqldbWrap c <;> simp [isDBConnectEvent, h]

theorem dbUnit_filterNe (env : Env) (dbc : DBConfig) (c : SQLDBConfig)
    (st : BringUpState) (n : String) (h : c.Name ≠ n) :
    ((dbUnit env dbc c st).events).filter (isDBConnectEvent n) =
      (st.events).filter (isDBConnectEvent n) := by
  rw [dbUnit_events, List.filter_append, dbUnitOut_filterNe env dbc c _ n h,
    List.append_nil]

theorem dbFoldFilter (env : Env) (dbc : DBConfig) (l : List SQLDBConfig)
    (st : BringUpState) (c : SQLDBConfig) (hc : c ∈ l)
    (hnd : (l.map SQLDBConfig.Name).Nodup) :
    ((l.foldl (fun s x => dbUnit env dbc x s) st).events).filter
        (isDBConnectEvent c.Name) =
      ((st.events).filter (isDBConnectEvent c.Name)) ++
        ((dbUnitOut env dbc c 0).eventsOut).filter (isDBConnectEvent c.Name) := by
  induction l generalizing st with
  | nil => exact absurd hc (List.not_mem_nil c)
  | cons x rest ih =>
      rw [List.foldl_cons]
      rw [List.map_cons, List.nodup_cons] at hnd
      rcases List.mem_cons.mp hc with h | h
      · subst h
        have hne : ∀ y ∈ rest, y.Name ≠ c.Name := by
          intro y hy heq
          exact hnd.1 (heq ▸ List.mem_map_of_mem SQLDBConfig.Name hy)
        rw [foldFilterEventsMem _ _ rest
          (fun s₁ y hy => dbUnit_filterNe env dbc y s₁ c.Name (hne y hy))]
        rw [dbUnit_events, List.filter_append,
          dbUnitOut_events_base env dbc c st.nextID]
      · have hxc : x.Name ≠ c.Name := fun heq =>
          hnd.1 (heq ▸ List.mem_map_of_mem SQLDBConfig.Name h)
        rw [← dbUnit_filterNe env dbc x st c.Name hxc]
        exact ih (dbUnit env dbc x st) h hnd.2

theorem dbUnit_errsExtend (env : Env) (dbc : DBConfig) (c : SQLDBConfig)
    (st : BringUpState) : ∃ t, (dbUnit env dbc c st).errs = st.errs ++ t :=
  ⟨(dbUnitOut env dbc c st.nextID).errsOut, dbUnit_errs env dbc c st⟩

theorem foldErrsPreserve {β : Type} (f : BringUpState → β → BringUpState)
    (hf : ∀ s b, ∃ t, (f s b).errs = s.errs ++ t) (l : List β)
    (s : BringUpState) (e : GoErr) (he : e ∈ s.errs) :
    e ∈ (l.foldl f s).errs :=
  foldPreserve f (fun s₁ => e ∈ s₁.errs)
    (fun s₁ b hm => by
      rcases hf s₁ b with ⟨t, ht⟩
      rw [ht]
      exact List.mem_append_left t hm)
    l s he

theorem storageFoldErrMem (env : Env) (l : List ObjectStorageConfig)
    (st : BringUpState) (c : ObjectStorageConfig) (e : GoErr) (hc : c ∈ l)
    (he : storageResolve env c = some e) :
    e ∈ (l.foldl (fun s x => storageUnit env x s) st).errs := by
  induction l generalizing st with
  | nil => exact absurd hc (List.not_mem_nil c)
  | cons x rest ih =>
      rw [List.foldl_cons]
      rcases List.mem_cons.mp hc with h | h
      · subst h
        apply foldErrsPreserve _ (fun s b => storageUnit_errsExtend env b s) rest
        unfold storageUnit
        rw [he]
        simp
      · exact ih (storageUnit env x st) h

theorem dbUnitOut_errs_default (env : Env) (dbc : DBConfig) (c : SQLDBConfig)
    (b : Nat) (e : GoErr)
    (he : env.connSetDefault c.LeaderConnConfig dbc = .error e) :
    (dbUnitOut env dbc c b).errsOut = [e] := by
  rw [dbUnitOut_eq_main]
  unfold dbUnitMain
  rw [he]

theorem dbFoldErrMem (env : Env) (dbc : DBConfig) (l : List SQLDBConfig)
    (st : BringUpState) (c : SQLDBConfig) (e : GoErr) (hc : c ∈ l)
    (he : env.connSetDefault c.LeaderConnConfig dbc = .error e) :
    e ∈ (l.foldl (fun s x => dbUnit env dbc x s) st).errs := by
  induction l generalizing st with
  | nil => exact absurd hc (List.not_mem_nil c)
  | cons x rest ih =>
      rw [List.foldl_cons]
      rcases List.mem_cons.mp hc with h | h
      · subst h
        apply foldErrsPreserve _ (fun s b => dbUnit_errsExtend env dbc b s) rest
        rw [dbUnit_errs, dbUnitOut_errs_default env dbc c st.nextID e he]
        simp
      · exact ih (dbUnit env dbc x st) h

theorem newFinalState_ok (env : Env) (cfg : Config) (dbc : DBConfig)
    (hok : env.dbSetDefault cfg.DBConfig = .ok dbc) :
    newFinalState env cfg = .ok (
      dbc.SQLDBs.foldl (fun s c => dbUnit env dbc c s)
        (cfg.RedisConfig.Rds.foldl (fun s c => redisUnit env cfg.RedisConfig c s)
          (cfg.ObjectStorageConfig.foldl (fun s c => storageUnit env c s)
            ⟨[], [], [], [], [Event.setDefaultDB], 0⟩))) := by
  unfold newFinalState
  rw [hok]

theorem New_ok (env : Env) (cfg : Config) (dbc : DBConfig)
    (hok : env.dbSetDefault cfg.DBConfig = .ok dbc) :
    New env cfg = (some ⟨(finalStateD env cfg).objStorages,
      (finalStateD env cfg).dbs, (finalStateD env cfg).rds⟩,
      (finalStateD env cfg).errs.head?) := by
  unfold New finalStateD
  rw [newFinalState_ok env cfg dbc hok]

theorem finalStateD_ok (env : Env) (cfg : Config) (dbc : DBConfig)
    (hok : env.dbSetDefault cfg.DBConfig = .ok dbc) :
    finalStateD env cfg =
      dbc.SQLDBs.foldl (fun s c => dbUnit env dbc c s)
        (cfg.RedisConfig.Rds.foldl (fun s c => redisUnit env cfg.RedisConfig c s)
          (cfg.ObjectStorageConfig.foldl (fun s c => storageUnit env c s)
            ⟨[], [], [], [], [Event.setDefaultDB], 0⟩)) := by
  unfold finalStateD
  rw [newFinalState_ok env cfg dbc hok]

theorem finalStateD_objStorages (env : Env) (cfg : Config) (dbc : DBConfig)
    (hok : env.dbSetDefault cfg.DBConfig = .ok dbc) :
    (finalStateD env cfg).objStorages =
      (cfg.ObjectStorageConfig.foldl (fun s c => storageUnit env c s)
        ⟨[], [], [], [], [Event.setDefaultDB], 0⟩).objStorages := by
  rw [finalStateD_ok env cfg dbc hok]
  rw [foldFrame _ BringUpState.objStorages (fun s c => dbUnit_objStorages env dbc c s)]
  rw [foldFrame _ BringUpState.objStorages
    (fun s c => redisUnit_objStorages env cfg.RedisConfig c s)]

theorem finalStateD_rds (env : Env) (cfg : Config) (dbc : DBConfig)
    (hok : env.dbSetDefault cfg.DBConfig = .ok dbc) :
    (finalStateD env cfg).rds =
      (cfg.RedisConfig.Rds.foldl (fun s c => redisUnit env cfg.RedisConfig c s)
        (cfg.ObjectStorageConfig.foldl (fun s c => storageUnit env c s)
          ⟨[], [], [], [], [Event.setDefaultDB], 0⟩)).rds := by
  rw [finalStateD_ok env cfg dbc hok]
  rw [foldFrame _ BringUpState.rds (fun s c => dbUnit_rds env dbc c s)]

theorem storageResolve_notFound (env : Env) (c : ObjectStorageConfig)
    (h : providerRecognized c.Provider = false) :
    storageResolve env c = some providerNotFoundErr := by
  unfold providerRecognized at h
  simp only [Bool.or_eq_false_iff, beq_eq_false_iff_ne] at h
  obtain ⟨⟨⟨⟨h1, h2⟩, h3⟩, h4⟩, h5⟩ := h
  unfold storageResolve
  rw [if_neg h1, if_neg h2, if_neg ?_]
  rintro (h | h | h)
  · exact h3 h
  · exact h4 h
  · exact h5 h

theorem head?_some_of_ne_nil {α : Type} (l : List α) (h : l ≠ []) :
    l.head? ≠ none := by
  cases l with
  | nil => exact absurd rfl h
  | cons a rest => simp

theorem head?_append_of_some {α : Type} (l t : List α) (a : α)
    (h : l.head? = some a) : (l ++ t).head? = some a := by
  cases l with
  | nil => simp at h
  | cons x rest => simpa using h

theorem storageFoldPresence (env : Env) (l : List ObjectStorageConfig)
    (st : BringUpState) (c : ObjectStorageConfig) (hc : c ∈ l)
    (hok : storageOK env c = true) :
    (mapLookup ((l.foldl (fun s x => storageUnit env x s) st).objStorages)
      c.Name).isSome = true :=
  foldPresenceGen (fun s x => storageUnit env x s) BringUpState.objStorages
    (fun x => x.Name) (fun x => storageOK env x = true)
    (fun s b n h => storageUnit_presence env b s n h)
    (fun s b hb => storageUnit_selfPresence env b s hb) l st c hc hok

theorem redisFoldPresence (env : Env) (shared : RedisConfig)
    (l : List RedisConnConfig) (st : BringUpState) (rc : RedisConnConfig)
    (hc : rc ∈ l) (hok : redisOK env shared rc = true) :
    (mapLookup ((l.foldl (fun s x => redisUnit env shared x s) st).rds)
      rc.Name).isSome = true :=
  foldPresenceGen (fun s x => redisUnit env shared x s) BringUpState.rds
    (fun x => x.Name) (fun x => redisOK env shared x = true)
    (fun s b n h => redisUnit_presence env shared b s n h)
    (fun s b hb => redisUnit_selfPresence env shared b s hb) l st rc hc hok

theorem dbFoldPresence (env : Env) (dbc : DBConfig) (l : List SQLDBConfig)
    (st : BringUpState) (c : SQLDBConfig) (hc : c ∈ l)
    (hok : dbOK env dbc c = true) :
    (mapLookup ((l.foldl (fun s x => dbUnit env dbc x s) st).dbs)
      c.Name).isSome = true :=
  foldPresenceGen (fun s x => dbUnit env dbc x s) BringUpState.dbs
    (fun x => x.Name) (fun x => dbOK env dbc x = true)
    (fun s b n h => dbUnit_presence env dbc b s n h)
    (fun s b hb => dbUnit_selfPresence env dbc b s hb) l st c hc hok

theorem dbUnitOut_noReplica (env : Env) (dbc : DBConfig) (c : SQLDBConfig)
    (lc : SQLDBConnConfig) (b : Nat)
    (hdef : env.connSetDefault c.LeaderConnConfig dbc = .ok lc)
    (hconn : env.sqldbConnect c.Driver lc = none)
    (hwrap : env.sqldbWrap c = none)
    (hrep : c.ReplicaConnConfig.DSN = "") :
    dbUnitOut env dbc c b = ⟨some ⟨b, b⟩, [],
      [Event.connSetDefault c.Name true,
       Event.connectLeader c.Name c.Driver lc.DSN], 1⟩ := by
  rw [dbUnitOut_eq_main]
  unfold dbUnitMain
  rw [hdef]
  dsimp only
  rw [hconn]
  dsimp only
  rw [if_pos hrep, hwrap]

theorem dbUnitOut_withReplica (env : Env) (dbc : DBConfig) (c : SQLDBConfig)
    (lc : SQLDBConnConfig) (b : Nat)
    (hdef : env.connSetDefault c.LeaderConnConfig dbc = .ok lc)
    (hconn : env.sqldbConnect c.Driver lc = none)
    (hwrap : env.sqldbWrap c = none)
    (hrep : c.ReplicaConnConfig.DSN ≠ "")
    (hconn2 : env.sqldbConnect c.Driver c.ReplicaConnConfig = none) :
    dbUnitOut env dbc c b = ⟨some ⟨b, b + 1⟩, [],
      [Event.connSetDefault c.Name true,
       Event.connectLeader c.Name c.Driver lc.DSN,
       Event.connectFollower c.Name c.Driver c.ReplicaConnConfig.DSN], 2⟩ := by
  rw [dbUnitOut_eq_main]
  unfold dbUnitMain
  rw [hdef]
  dsimp only
  rw [hconn]
  dsimp only
  rw [if_neg hrep, hconn2]
  dsimp only
  rw [hwrap]
  rfl

theorem preUnitsFilterDB (env : Env) (cfg : Config) (n : String) :
    ((cfg.RedisConfig.Rds.foldl (fun s c => redisUnit env cfg.RedisConfig c s)
      (cfg.ObjectStorageConfig.foldl (fun s c => storageUnit env c s)
        ⟨[], [], [], [], [Event.setDefaultDB], 0⟩)).events).filter
      (isDBConnectEvent n) = [] := by
  rw [foldFilterEventsMem (fun s c => redisUnit env cfg.RedisConfig c s)
    (isDBConnectEvent n) cfg.RedisConfig.Rds
    (fun s₁ b hb => redisUnit_filterDB env cfg.RedisConfig b s₁ n)]
  rw [foldFilterEventsMem (fun s c => storageUnit env c s)
    (isDBConnectEvent n) cfg.ObjectStorageConfig
    (fun s₁ b hb => storageUnit_filterDB env b s₁ n)]
  rfl

/-- Name recorded in a close event (empty for bring-up events). -/
def closedName : Event → String
  | Event.closeStorage n _ => n
  | Event.closeDB n _ => n
  | Event.closeRedis n _ => n
  | _ => ""

/-- Claim C7: CloseAll returns a nil error for every registry and every
oracle (so also when individual closes fail - the close calls are made and
their outcomes discarded, and the sequence of closed handles does not
depend on those outcomes), and its close-event trace names each registered
handle exactly once, in family order: all object storages, then all
databases, then all caches. -/
theorem claim_C7 (k : Kothak) (env : Env) :
    (k.CloseAll env).2.2 = none ∧
    ((k.CloseAll env).2.1).map closedName =
      k.objStorages.map Prod.fst ++ k.dbs.map Prod.fst ++ k.rds.map Prod.fst ∧
    ((k.CloseAll env).2.1).length =
      k.objStorages.length + k.dbs.length + k.rds.length := by
  refine ⟨rfl, ?_, ?_⟩
  · unfold Kothak.CloseAll
    simp only [List.map_append, List.map_map]
    rfl
  · unfold Kothak.CloseAll
    simp [List.length_append, Nat.add_assoc]

/-- Claim C10: CloseAll leaves the registry's three maps unchanged - the
same Kothak value remains, every get afterwards returns exactly what it
returned before, and a second CloseAll call produces the same close events
again: close happens exactly once per call, not once per process
lifetime. -/
theorem claim_C10 (k : Kothak) (env : Env) (n : String) :
    (k.CloseAll env).1 = k ∧
    ((k.CloseAll env).1).GetSQLDB n = k.GetSQLDB n ∧
    ((k.CloseAll env).1).GetRedis n = k.GetRedis n ∧
    ((k.CloseAll env).1).GetObjectStorage n = k.GetObjectStorage n ∧
    ((k.CloseAll env).1).CloseAll env = k.CloseAll env :=
  ⟨rfl, rfl, rfl, rfl, rfl⟩

/-- Claim C8: per family, get on an absent name yields a nil handle plus
the lookup error (a pure read - the embedded accessors return no modified
registry and terminate normally), mustGet on an absent name reaches the
terminating logger.Fatalf outcome, and get on a present name yields the
registered handle with a nil error. -/
theorem claim_C8 (k : Kothak) (n : String) :
    (mapLookup k.dbs n = none →
      k.GetSQLDB n = (none, some (dbLookupErr n)) ∧
      k.MustGetSQLDB n = MustGet.fatal (dbLookupErr n)) ∧
    (∀ h, mapLookup k.dbs n = some h →
      k.GetSQLDB n = (some h, none) ∧ k.MustGetSQLDB n = MustGet.ok h) ∧
    (mapLookup k.rds n = none →
      k.GetRedis n = (none, some (redisLookupErr n)) ∧
      k.MustGetRedis n = MustGet.fatal (redisLookupErr n)) ∧
    (∀ h, mapLookup k.rds n = some h →
      k.GetRedis n = (some h, none) ∧ k.MustGetRedis n = MustGet.ok h) ∧
    (mapLookup k.objStorages n = none →
      k.GetObjectStorage n = (none, some (objLookupErr n)) ∧
      k.MustGetObjectStorage n = MustGet.fatal (objLookupErr n)) ∧
    (∀ h, mapLookup k.objStorages n = some h →
      k.GetObjectStorage n = (some h, none) ∧
      k.MustGetObjectStorage n = MustGet.ok h) := by
  refine ⟨fun h0 => ⟨?_, ?_⟩, fun h1 h0 => ⟨?_, ?_⟩, fun h0 => ⟨?_, ?_⟩,
    fun h1 h0 => ⟨?_, ?_⟩, fun h0 => ⟨?_, ?_⟩, fun h1 h0 => ⟨?_, ?_⟩⟩ <;>
    simp [Kothak.GetSQLDB, Kothak.MustGetSQLDB, Kothak.GetRedis,
      Kothak.MustGetRedis, Kothak.GetObjectStorage,
      Kothak.MustGetObjectStorage, h0]

/-- Concrete registry used by the claim C8 witness. -/
def kW : Kothak := ⟨[("o1", 5)], [("d1", ⟨1, 2⟩)], [("r1", 7)]⟩

/-- Witness for claim C8: the accessor contracts evaluated on a concrete
registry, for an absent name and for each present name. -/
theorem claim_C8_witness :
    (kW.GetSQLDB "nope" = (none, some (dbLookupErr "nope")) ∧
     kW.MustGetSQLDB "nope" = MustGet.fatal (dbLookupErr "nope")) ∧
    (kW.GetSQLDB "d1" = (some ⟨1, 2⟩, none) ∧
     kW.MustGetSQLDB "d1" = MustGet.ok ⟨1, 2⟩) ∧
    (kW.GetRedis "nope" = (none, some (redisLookupErr "nope")) ∧
     kW.MustGetRedis "nope" = MustGet.fatal (redisLookupErr "nope")) ∧
    (kW.GetRedis "r1" = (some 7, none) ∧ kW.MustGetRedis "r1" = MustGet.ok 7) ∧
    (kW.GetObjectStorage "nope" = (none, some (objLookupErr "nope")) ∧
     kW.MustGetObjectStorage "nope" = MustGet.fatal (objLookupErr "nope")) ∧
    (kW.GetObjectStorage "o1" = (some 5, none) ∧
     kW.MustGetObjectStorage "o1" = MustGet.ok 5) := by
  obtain ⟨n1, _, n3, _, n5, _⟩ := claim_C8 kW "nope"
  obtain ⟨_, d2, _, _, _, _⟩ := claim_C8 kW "d1"
  obtain ⟨_, _, _, r4, _, _⟩ := claim_C8 kW "r1"
  obtain ⟨_, _, _, _, _, o6⟩ := claim_C8 kW "o1"
  exact ⟨n1 (by decide), d2 ⟨1, 2⟩ (by decide), n3 (by decide),
    r4 7 (by decide), n5 (by decide), o6 5 (by decide)⟩

/-- Claim C2: whenever the accumulation list ends up with two or more
failures, New returns exactly the first recorded entry of that list as its
error, and the remaining recorded failures exist but are not surfaced
(kothak.go lines 244-246 set err to errs[0] only). -/
theorem claim_C2 (env : Env) (cfg : Config) (st : BringUpState)
    (hok : newFinalState env cfg = .ok st) (h2 : 2 ≤ st.errs.length) :
    ∃ e rest, st.errs = e :: rest ∧ rest ≠ [] ∧ (New env cfg).2 = some e := by
  cases herrs : st.errs with
  | nil => rw [herrs] at h2; simp at h2
  | cons e rest =>
      refine ⟨e, rest, rfl, ?_, ?_⟩
      · intro hr
        rw [herrs, hr] at h2
        simp at h2
      · unfold New
        rw [hok]
        dsimp only
        rw [herrs]
        rfl

/-- Configuration whose two object-storage entries both name unrecognized
providers, used by the claim C2 witness. -/
def cfgC2 : Config :=
  ⟨⟨[]⟩, ⟨0, 0, 0, []⟩, [mkStorage "s1" "ftp", mkStorage "s2" "sftp"]⟩

/-- Witness for claim C2: with two failing units, New surfaces exactly the
first recorded failure and at least one more failure stays unsurfaced. -/
theorem claim_C2_witness :
    ∃ e rest, (finalStateD envOK cfgC2).errs = e :: rest ∧ rest ≠ [] ∧
      (New envOK cfgC2).2 = some e :=
  claim_C2 envOK cfgC2 (finalStateD envOK cfgC2) rfl (by decide)

/-- Claim C6 is contradicted by the code (evidence): the spawned units
append to the shared errs slice with no synchronization.  Under the
interleaving in which both goroutines first read the slice and then both
write, one appended failure is lost (final length 1) even though both
goroutines completed their append (both program counters reach 2), while
any serialized schedule records both failures (length 2). -/
theorem claim_C6 :
    ((raceRun (GoErr.mk "a") (GoErr.mk "b") [true, false, true, false]).errs
      = [GoErr.mk "b"]) ∧
    (raceRun (GoErr.mk "a") (GoErr.mk "b") [true, false, true, false]).pc1 = 2 ∧
    (raceRun (GoErr.mk "a") (GoErr.mk "b") [true, false, true, false]).pc2 = 2 ∧
    ((raceRun (GoErr.mk "a") (GoErr.mk "b") [true, true, false, false]).errs
      = [GoErr.mk "a", GoErr.mk "b"]) := by
  decide

/-- Claim C9: an empty driver identifier is not rejected - the empty-driver
branch of kothak.go lines 193-195 is a no-op (dbUnitOut coincides with
dbUnitMain), the unit proceeds to the leader connect passing the empty
string as the driver, and a connect failure surfaces as that resource's
error in errsOut (scoped to the unit), not as a configuration error. -/
theorem claim_C9 (env : Env) (dbc : DBConfig) (c : SQLDBConfig) (b : Nat)
    (lc : SQLDBConnConfig) (e : GoErr)
    (hdrv : c.Driver = "")
    (hdef : env.connSetDefault c.LeaderConnConfig dbc = .ok lc)
    (hconn : env.sqldbConnect "" lc = some e) :
    dbUnitOut env dbc c b = dbUnitMain env dbc c b ∧
    dbUnitOut env dbc c b =
      ⟨none, [e],
       [Event.connSetDefault c.Name true,
        Event.connectLeader c.Name "" lc.DSN], 0⟩ := by
  refine ⟨dbUnitOut_eq_main env dbc c b, ?_⟩
  rw [dbUnitOut_eq_main]
  unfold dbUnitMain
  rw [hdef]
  dsimp only
  rw [hdrv, hconn]

/-- Oracle that fails exactly the connect calls made with an empty driver
identifier, used by the claim C9 witness. -/
def envC9 : Env := { envOK with
  sqldbConnect := fun d _ =>
    if d = "" then some (GoErr.mk "connect failed") else none }

/-- Witness for claim C9 at a concrete entry whose driver is empty. -/
theorem claim_C9_witness :
    dbUnitOut envC9 ⟨[]⟩ (mkSQLDB "d1" "" "dsn" "") 0 =
      dbUnitMain envC9 ⟨[]⟩ (mkSQLDB "d1" "" "dsn" "") 0 ∧
    dbUnitOut envC9 ⟨[]⟩ (mkSQLDB "d1" "" "dsn" "") 0 =
      ⟨none, [GoErr.mk "connect failed"],
       [Event.connSetDefault "d1" true, Event.connectLeader "d1" "" "dsn"], 0⟩ :=
  claim_C9 envC9 ⟨[]⟩ (mkSQLDB "d1" "" "dsn" "") 0 ⟨"dsn", 0, 0, 0⟩
    (GoErr.mk "connect failed") rfl rfl rfl

/-- Oracle whose whole-config defaulting fails, for the claim C1 and C3
counterexamples. -/
def envC1 : Env := { envOK with
  dbSetDefault := fun _ => .error (GoErr.mk "default failed") }

/-- Configuration with one valid object-storage entry, for the claim C1
counterexample. -/
def cfgC1 : Config := ⟨⟨[]⟩, ⟨0, 0, 0, []⟩, [mkStorage "s1" "local"]⟩

/-- Counterexample to claim C1 as stated: New does not return a non-nil
registry on every error - when DBConfig.SetDefault fails, kothak.go line 57
returns a nil registry together with the error, even though the
configuration contains a resource that would have succeeded. -/
theorem counterexample_C1 :
    New envC1 cfgC1 = (none, some (GoErr.mk "default failed")) := rfl

/-- Claim C1 (amended): for every configuration on which the whole-config
defaulting succeeds, New returns a non-nil registry even when it also
returns a non-nil error, and every resource whose bring-up unit succeeded
is present in that registry under its configured name - best-effort partial
bring-up, not rollback on failure. -/
theorem claim_C1 (env : Env) (cfg : Config) (dbc : DBConfig)
    (hok : env.dbSetDefault cfg.DBConfig = .ok dbc) :
    ∃ k, (New env cfg).1 = some k ∧
      (∀ c ∈ cfg.ObjectStorageConfig, storageOK env c = true →
        (mapLookup k.objStorages c.Name).isSome = true) ∧
      (∀ rc ∈ cfg.RedisConfig.Rds, redisOK env cfg.RedisConfig rc = true →
        (mapLookup k.rds rc.Name).isSome = true) ∧
      (∀ c ∈ dbc.SQLDBs, dbOK env dbc c = true →
        (mapLookup k.dbs c.Name).isSome = true) := by
  refine ⟨⟨(finalStateD env cfg).objStorages, (finalStateD env cfg).dbs,
    (finalStateD env cfg).rds⟩, ?_, ?_, ?_, ?_⟩
  · rw [New_ok env cfg dbc hok]
  · intro c hc hcok
    dsimp only
    rw [finalStateD_objStorages env cfg dbc hok]
    exact storageFoldPresence env cfg.ObjectStorageConfig _ c hc hcok
  · intro rc hc hcok
    dsimp only
    rw [finalStateD_rds env cfg dbc hok]
    exact redisFoldPresence env cfg.RedisConfig cfg.RedisConfig.Rds _ rc hc hcok
  · intro c hc hcok
    dsimp only
    rw [finalStateD_ok env cfg dbc hok]
    exact dbFoldPresence env dbc dbc.SQLDBs _ c hc hcok

/-- Configuration with one resource from each family, for the claim C1
witness. -/
def cfgC1w : Config :=
  ⟨⟨[mkSQLDB "d1" "pg" "dsn" ""]⟩, ⟨0, 0, 0, [⟨"r1", "a1"⟩]⟩,
   [mkStorage "s1" "local"]⟩

/-- Witness for claim C1: a concrete all-success bring-up where every
configured resource ends up in the returned registry. -/
theorem claim_C1_witness :
    ∃ k, (New envOK cfgC1w).1 = some k ∧
      (mapLookup k.objStorages "s1").isSome = true ∧
      (mapLookup k.rds "r1").isSome = true ∧
      (mapLookup k.dbs "d1").isSome = true := by
  obtain ⟨k, hk, hs, hr, hd⟩ := claim_C1 envOK cfgC1w cfgC1w.DBConfig rfl
  exact ⟨k, hk, hs (mkStorage "s1" "local") (by decide) (by decide),
    hr ⟨"r1", "a1"⟩ (by decide) (by decide),
    hd (mkSQLDB "d1" "pg" "dsn" "") (by decide) (by decide)⟩

/-- Configuration with one redis and one database entry, for the claim C3
counterexample and witness. -/
def cfgC3 : Config :=
  ⟨⟨[mkSQLDB "d1" "postgres" "dsn1" ""]⟩, ⟨0, 0, 0, [⟨"r1", "addr1"⟩]⟩, []⟩

/-- Oracle whose per-connection defaulting fails, for the claim C3
counterexample and witness. -/
def envC3 : Env := { envOK with
  connSetDefault := fun _ _ => .error (GoErr.mk "leader default failed") }

/-- Counterexample to claim C3 as stated: a defaulting failure is not
always fatal and defaulting does not happen only before the units - the
per-database leader-connection SetDefault (kothak.go line 198) runs inside
the database unit, after the redis unit already connected (see the event
trace), its failure is recorded in the shared failure list, and New still
returns a partially populated registry instead of aborting. -/
theorem counterexample_C3 :
    (New envC3 cfgC3).1 = some ⟨[], [], [("r1", 0)]⟩ ∧
    (New envC3 cfgC3).2 = some (GoErr.mk "leader default failed") ∧
    (finalStateD envC3 cfgC3).events =
      [Event.setDefaultDB, Event.connectRedis "r1" "addr1" true,
       Event.connSetDefault "d1" false] :=
  ⟨rfl, rfl, rfl⟩

/-- Claim C3 (amended): the whole-config defaulting DBConfig.SetDefault is
applied once, first (the bring-up trace starts with it) and its failure is
fatal - New returns a nil registry with that error and runs no unit; but
each database unit additionally applies the leader-connection defaulting
inside the unit, and such a failure is scoped to that one resource: its
error joins the shared failure list and New still returns a registry. -/
theorem claim_C3 (env : Env) (cfg : Config) :
    (∀ e, env.dbSetDefault cfg.DBConfig = .error e →
      New env cfg = (none, some e)) ∧
    (∀ dbc, env.dbSetDefault cfg.DBConfig = .ok dbc →
      (finalStateD env cfg).events.head? = some Event.setDefaultDB ∧
      (New env cfg).1 ≠ none) ∧
    (∀ dbc c e, env.dbSetDefault cfg.DBConfig = .ok dbc →
      c ∈ dbc.SQLDBs →
      env.connSetDefault c.LeaderConnConfig dbc = .error e →
      e ∈ (finalStateD env cfg).errs ∧ (New env cfg).1 ≠ none) := by
  refine ⟨?_, ?_, ?_⟩
  · intro e he
    unfold New newFinalState
    rw [he]
  · intro dbc hok
    constructor
    · rw [finalStateD_ok env cfg dbc hok]
      refine foldPreserve (fun s c => dbUnit env dbc c s)
        (fun s => s.events.head? = some Event.setDefaultDB)
        (fun s b hs => ?_) dbc.SQLDBs _ ?_
      · show (dbUnit env dbc b s).events.head? = some Event.setDefaultDB
        rw [dbUnit_events]
        exact head?_append_of_some _ _ _ hs
      · refine foldPreserve (fun s c => redisUnit env cfg.RedisConfig c s)
          (fun s => s.events.head? = some Event.setDefaultDB)
          (fun s b hs => ?_) cfg.RedisConfig.Rds _ ?_
        · show (redisUnit env cfg.RedisConfig b s).events.head? =
            some Event.setDefaultDB
          rw [redisUnit_events]
          exact head?_append_of_some _ _ _ hs
        · refine foldPreserve (fun s c => storageUnit env c s)
            (fun s => s.events.head? = some Event.setDefaultDB)
            (fun s b hs => ?_) cfg.ObjectStorageConfig _ ?_
          · show (storageUnit env b s).events.head? = some Event.setDefaultDB
            rw [storageUnit_events]
            exact head?_append_of_some _ _ _ hs
          · rfl
    · rw [New_ok env cfg dbc hok]
      simp
  · intro dbc c e hok hmem hdef
    constructor
    · rw [finalStateD_ok env cfg dbc hok]
      exact dbFoldErrMem env dbc dbc.SQLDBs _ c e hmem hdef
    · rw [New_ok env cfg dbc hok]
      simp

/-- Witness for claim C3 at concrete oracles: failing whole-config
defaulting aborts with a nil registry; with it succeeding, the trace starts
with the defaulting event, and a failing per-resource leader defaulting
lands in the failure list while a registry is still returned. -/
theorem claim_C3_witness :
    New envC1 cfgC3 = (none, some (GoErr.mk "default failed")) ∧
    (finalStateD envC3 cfgC3).events.head? = some Event.setDefaultDB ∧
    GoErr.mk "leader default failed" ∈ (finalStateD envC3 cfgC3).errs ∧
    (New envC3 cfgC3).1 ≠ none := by
  obtain ⟨a0, b0, c0⟩ := claim_C3 envC3 cfgC3
  obtain ⟨b1, _⟩ := b0 cfgC3.DBConfig rfl
  obtain ⟨c1, c2⟩ := c0 cfgC3.DBConfig (mkSQLDB "d1" "postgres" "dsn1" "")
    (GoErr.mk "leader default failed") rfl (by decide) rfl
  exact ⟨(claim_C3 envC1 cfgC3).1 (GoErr.mk "default failed") rfl, b1, c1, c2⟩

/-- Claim C5: provider selection depends only on the lowercased identifier
(a config whose provider merely differs in case resolves identically, for
every oracle), an unrecognized identifier fails that one unit with the
provider-not-found error, and with exactly one such bad entry among the
object storages while every other unit succeeds, New reports a non-nil
error while the returned registry still holds every other object storage
plus all databases and caches. -/
theorem claim_C5 (env : Env) (cfg : Config) (dbc : DBConfig)
    (bad : ObjectStorageConfig)
    (hok : env.dbSetDefault cfg.DBConfig = .ok dbc)
    (hbadMem : bad ∈ cfg.ObjectStorageConfig)
    (hbad : providerRecognized bad.Provider = false)
    (hothers : ∀ c ∈ cfg.ObjectStorageConfig, c ≠ bad → storageOK env c = true)
    (hredis : ∀ rc ∈ cfg.RedisConfig.Rds, redisOK env cfg.RedisConfig rc = true)
    (hdbs : ∀ c ∈ dbc.SQLDBs, dbOK env dbc c = true) :
    (∀ c : ObjectStorageConfig, ∀ p : String,
      goToLower p = goToLower c.Provider →
      storageResolve env { c with Provider := p } = storageResolve env c) ∧
    storageResolve env bad = some providerNotFoundErr ∧
    providerNotFoundErr ∈ (finalStateD env cfg).errs ∧
    (New env cfg).2 ≠ none ∧
    (∃ k, (New env cfg).1 = some k ∧
      (∀ c ∈ cfg.ObjectStorageConfig, c ≠ bad →
        (mapLookup k.objStorages c.Name).isSome = true) ∧
      (∀ rc ∈ cfg.RedisConfig.Rds, (mapLookup k.rds rc.Name).isSome = true) ∧
      (∀ c ∈ dbc.SQLDBs, (mapLookup k.dbs c.Name).isSome = true)) := by
  have hmem : providerNotFoundErr ∈ (finalStateD env cfg).errs := by
    rw [finalStateD_ok env cfg dbc hok]
    apply foldErrsPreserve _ (fun s b => dbUnit_errsExtend env dbc b s)
    apply foldErrsPreserve _ (fun s b => redisUnit_errsExtend env cfg.RedisConfig b s)
    exact storageFoldErrMem env cfg.ObjectStorageConfig _ bad providerNotFoundErr
      hbadMem (storageResolve_notFound env bad hbad)
  refine ⟨?_, storageResolve_notFound env bad hbad, hmem, ?_, ?_⟩
  · intro c p hp
    unfold storageResolve
    dsimp only
    rw [hp]
  · rw [New_ok env cfg dbc hok]
    exact head?_some_of_ne_nil _ (List.ne_nil_of_mem hmem)
  · refine ⟨⟨(finalStateD env cfg).objStorages, (finalStateD env cfg).dbs,
      (finalStateD env cfg).rds⟩, ?_, ?_, ?_, ?_⟩
    · rw [New_ok env cfg dbc hok]
    · intro c hc hcne
      dsimp only
      rw [finalStateD_objStorages env cfg dbc hok]
      exact storageFoldPresence env cfg.ObjectStorageConfig _ c hc
        (hothers c hc hcne)
    · intro rc hc
      dsimp only
      rw [finalStateD_rds env cfg dbc hok]
      exact redisFoldPresence env cfg.RedisConfig cfg.RedisConfig.Rds _ rc hc
        (hredis rc hc)
    · intro c hc
      dsimp only
      rw [finalStateD_ok env cfg dbc hok]
      exact dbFoldPresence env dbc dbc.SQLDBs _ c hc (hdbs c hc)

/-- Configuration with one uppercase-provider storage entry, one
unrecognized-provider entry, a redis and a database, for the claim C5
witness. -/
def cfgC5 : Config :=
  ⟨⟨[mkSQLDB "d1" "pg" "dsn" ""]⟩, ⟨0, 0, 0, [⟨"r1", "a1"⟩]⟩,
   [mkStorage "good1" "S3", mkStorage "badone" "ftp"]⟩

/-- Witness for claim C5: with exactly one unrecognized provider among two
storage entries, New errors while the other storage (selected through
uppercase S3), the database and the cache are all registered; and a
provider differing only in case resolves identically. -/
theorem claim_C5_witness :
    storageResolve envOK (mkStorage "badone" "ftp") = some providerNotFoundErr ∧
    providerNotFoundErr ∈ (finalStateD envOK cfgC5).errs ∧
    (New envOK cfgC5).2 ≠ none ∧
    (∃ k, (New envOK cfgC5).1 = some k ∧
      (mapLookup k.objStorages "good1").isSome = true ∧
      (mapLookup k.rds "r1").isSome = true ∧
      (mapLookup k.dbs "d1").isSome = true) ∧
    storageResolve envOK { mkStorage "good1" "s3" with Provider := "S3" } =
      storageResolve envOK (mkStorage "good1" "s3") := by
  obtain ⟨hci, hres, hmem, herr, k, hk, hs, hr, hd⟩ :=
    claim_C5 envOK cfgC5 cfgC5.DBConfig (mkStorage "badone" "ftp") rfl
      (by decide) (by decide) (by decide) (by decide) (by decide)
  exact ⟨hres, hmem, herr,
    ⟨k, hk, hs (mkStorage "good1" "S3") (by decide) (by decide),
     hr ⟨"r1", "a1"⟩ (by decide), hd (mkSQLDB "d1" "pg" "dsn" "") (by decide)⟩,
    hci (mkStorage "good1" "s3") "S3" (by decide)⟩

/-- Claim C4: for a database entry with an empty replica DSN, the installed
handle's follower pool is the leader pool itself (the same allocation id,
not a copy) and exactly one connect happens for that entry; for an entry
with a replica DSN, the follower is a separately connected pool (a
different, fresh id) whose connect event comes after the leader's in the
entry's connect-event trace. -/
theorem claim_C4 (env : Env) (cfg : Config) (dbc : DBConfig) (c : SQLDBConfig)
    (lc : SQLDBConnConfig)
    (hok : env.dbSetDefault cfg.DBConfig = .ok dbc)
    (hmem : c ∈ dbc.SQLDBs)
    (hnd : (dbc.SQLDBs.map SQLDBConfig.Name).Nodup)
    (hdef : env.connSetDefault c.LeaderConnConfig dbc = .ok lc)
    (hconn : env.sqldbConnect c.Driver lc = none)
    (hwrap : env.sqldbWrap c = none) :
    ∃ k, (New env cfg).1 = some k ∧
      (c.ReplicaConnConfig.DSN = "" →
        (∃ b, mapLookup k.dbs c.Name = some ⟨b, b⟩) ∧
        ((finalStateD env cfg).events).filter (isDBConnectEvent c.Name) =
          [Event.connectLeader c.Name c.Driver lc.DSN]) ∧
      (c.ReplicaConnConfig.DSN ≠ "" →
        env.sqldbConnect c.Driver c.ReplicaConnConfig = none →
        (∃ b, mapLookup k.dbs c.Name = some ⟨b, b + 1⟩ ∧ b + 1 ≠ b) ∧
        ((finalStateD env cfg).events).filter (isDBConnectEvent c.Name) =
          [Event.connectLeader c.Name c.Driver lc.DSN,
           Event.connectFollower c.Name c.Driver c.ReplicaConnConfig.DSN]) := by
  refine ⟨⟨(finalStateD env cfg).objStorages, (finalStateD env cfg).dbs,
    (finalStateD env cfg).rds⟩, ?_, ?_, ?_⟩
  · rw [New_ok env cfg dbc hok]
  · intro hrep
    constructor
    · dsimp only
      rw [finalStateD_ok env cfg dbc hok]
      exact dbFoldInstall env dbc dbc.SQLDBs _ c 0 hmem hnd (fun b => by
        rw [dbUnitOut_noReplica env dbc c lc b hdef hconn hwrap hrep]
        rfl)
    · rw [finalStateD_ok env cfg dbc hok]
      rw [dbFoldFilter env dbc dbc.SQLDBs _ c hmem hnd]
      rw [preUnitsFilterDB env cfg c.Name]
      rw [dbUnitOut_noReplica env dbc c lc 0 hdef hconn hwrap hrep]
      simp [isDBConnectEvent]
  · intro hrep hconn2
    constructor
    · dsimp only
      rw [finalStateD_ok env cfg dbc hok]
      obtain ⟨b, hb⟩ := dbFoldInstall env dbc dbc.SQLDBs
        (cfg.RedisConfig.Rds.foldl (fun s x => redisUnit env cfg.RedisConfig x s)
          (cfg.ObjectStorageConfig.foldl (fun s x => storageUnit env x s)
            ⟨[], [], [], [], [Event.setDefaultDB], 0⟩)) c 1 hmem hnd (fun b => by
        rw [dbUnitOut_withReplica env dbc c lc b hdef hconn hwrap hrep hconn2])
      exact ⟨b, hb, Nat.succ_ne_self b⟩
    · rw [finalStateD_ok env cfg dbc hok]
      rw [dbFoldFilter env dbc dbc.SQLDBs _ c hmem hnd]
      rw [preUnitsFilterDB env cfg c.Name]
      rw [dbUnitOut_withReplica env dbc c lc 0 hdef hconn hwrap hrep hconn2]
      simp [isDBConnectEvent]

/-- Configuration with two uniquely named database entries, one without and
one with a replica DSN, for the claim C4 witness. -/
def cfgC4 : Config :=
  ⟨⟨[mkSQLDB "d1" "pg" "dsn1" "", mkSQLDB "d2" "pg" "dsn2" "rdsn2"]⟩,
   ⟨0, 0, 0, []⟩, []⟩

/-- Witness for claim C4: d1 (no replica) gets follower = leader and a
single connect event; d2 (replica configured) gets a distinct follower pool
connected after the leader. -/
theorem claim_C4_witness :
    (∃ k, (New envOK cfgC4).1 = some k ∧
      (∃ b, mapLookup k.dbs "d1" = some ⟨b, b⟩) ∧
      ((finalStateD envOK cfgC4).events).filter (isDBConnectEvent "d1") =
        [Event.connectLeader "d1" "pg" "dsn1"]) ∧
    (∃ k, (New envOK cfgC4).1 = some k ∧
      (∃ b, mapLookup k.dbs "d2" = some ⟨b, b + 1⟩ ∧ b + 1 ≠ b) ∧
      ((finalStateD envOK cfgC4).events).filter (isDBConnectEvent "d2") =
        [Event.connectLeader "d2" "pg" "dsn2",
         Event.connectFollower "d2" "pg" "rdsn2"]) := by
  obtain ⟨k1, hk1, h11, _⟩ := claim_C4 envOK cfgC4 cfgC4.DBConfig
    (mkSQLDB "d1" "pg" "dsn1" "") ⟨"dsn1", 0, 0, 0⟩ rfl (by decide) (by decide)
    rfl rfl rfl
  obtain ⟨k2, hk2, _, h22⟩ := claim_C4 envOK cfgC4 cfgC4.DBConfig
    (mkSQLDB "d2" "pg" "dsn2" "rdsn2") ⟨"dsn2", 0, 0, 0⟩ rfl (by decide)
    (by decide) rfl rfl rfl
  obtain ⟨ha, hb⟩ := h11 rfl
  obtain ⟨hc, hd⟩ := h22 (by decide) rfl
  exact ⟨⟨k1, hk1, ha, hb⟩, ⟨k2, hk2, hc, hd⟩⟩
